import Mathlib

/-!
Verification development for `backend/app/python_runner.py`: a shallow
embedding of the sandboxed Python runner (input sanitization, archive
building, container orchestration against an abstract container engine,
output collection), together with theorems settling the specification
claims about it.

Modelling conventions:
* Python `str` values are modelled as `List Char`; `bytes` as `List Nat`.
* Machine-level UTF-8 encoding is modelled by `charUtf8Size` (the exact
  per-codepoint byte count `str.encode("utf-8")` produces).
* The container engine (docker) is external to the repository; it is
  modelled as an oracle (`Engine`) giving each engine call's response.
  An engine call either returns a value or raises a `DockerException`
  (modelled as the `.error` side of `Except Unit _`); this matches the
  docker-py interface used by the source, whose operational errors are
  `DockerException` subclasses (`APIError`, `ImageNotFound`, ...).
* `run_python` returns its outcome together with the ordered trace of
  engine calls it made, so that claims about "no engine call is made"
  and "removal is always invoked" can be stated.
-/

namespace PythonRunner

/-- Whitespace as stripped by Python `str.strip()` (ASCII portion; the
source never depends on non-ASCII whitespace). -/
def pyIsSpace (c : Char) : Bool :=
  c == ' ' || c == '\t' || c == '\n' || c == '\r' || c == '\x0b' || c == '\x0c'

/-- Python `s.strip()`: remove leading and trailing whitespace. -/
def pyStrip (l : List Char) : List Char :=
  ((l.dropWhile pyIsSpace).reverse.dropWhile pyIsSpace).reverse

/-- Python `not code.strip()` for a string `code`. -/
def pyStripEmpty (l : List Char) : Bool :=
  (pyStrip l).isEmpty

/-- Number of bytes `str.encode("utf-8")` produces for one codepoint. -/
def charUtf8Size (c : Char) : Nat :=
  if c.toNat < 0x80 then 1
  else if c.toNat < 0x800 then 2
  else if c.toNat < 0x10000 then 3
  else 4

/-- Byte length of the UTF-8 encoding of a string (`len(s.encode("utf-8"))`). -/
def utf8Len (l : List Char) : Nat :=
  (l.map charUtf8Size).sum

/-- The fixed turtle-graphics shim module `TURTLE_STUB` from
`python_runner.py` (lines 18-143), verbatim. -/
def TURTLE_STUB : String :=
  "# Minimal turtle-like module that writes turtle.svg on exit.\nimport atexit\nimport math\n\nWIDTH = 500\nHEIGHT = 500\n\n_state = \x7b\n    \"x\": 0.0,\n    \"y\": 0.0,\n    \"heading\": 0.0,\n    \"pen\": True,\n    \"color\": \"#6aa6ff\",\n    \"width\": 2,\n\x7d\n_paths = []\n\n\ndef _to_svg(x, y):\n    return x + WIDTH / 2, HEIGHT / 2 - y\n\n\ndef _line_to(x, y):\n    if _state[\"pen\"]:\n        _paths.append((_state[\"x\"], _state[\"y\"], x, y, _state[\"color\"], _state[\"width\"]))\n    _state[\"x\"], _state[\"y\"] = x, y\n\n\ndef forward(dist):\n    radians = math.radians(_state[\"heading\"])\n    x = _state[\"x\"] + math.cos(radians) * dist\n    y = _state[\"y\"] + math.sin(radians) * dist\n    _line_to(x, y)\n\n\ndef backward(dist):\n    forward(-dist)\n\n\ndef left(angle):\n    _state[\"heading\"] = (_state[\"heading\"] + angle) % 360\n\n\ndef right(angle):\n    _state[\"heading\"] = (_state[\"heading\"] - angle) % 360\n\n\ndef penup():\n    _state[\"pen\"] = False\n\n\ndef pendown():\n    _state[\"pen\"] = True\n\n\ndef goto(x, y):\n    _line_to(float(x), float(y))\n\n\ndef setheading(angle):\n    _state[\"heading\"] = float(angle) % 360\n\n\ndef color(value):\n    _state[\"color\"] = str(value)\n\n\ndef pensize(value):\n    _state[\"width\"] = max(1, int(value))\n\n\ndef circle(radius, steps=36):\n    step = 360 / steps\n    step_len = (2 * math.pi * radius) / steps\n    for _ in range(steps):\n        forward(step_len)\n        left(step)\n\n\ndef write_svg(path=\"turtle.svg\"):\n    parts = [\n        f\'<svg xmlns=\"http://www.w3.org/2000/svg\" width=\"\x7bWIDTH\x7d\" height=\"\x7bHEIGHT\x7d\" \',\n        f\'viewBox=\"0 0 \x7bWIDTH\x7d \x7bHEIGHT\x7d\">\',\n        \'<rect width=\"100%\" height=\"100%\" fill=\"#0b0f14\"/>\',\n    ]\n    for x1, y1, x2, y2, color, width in _paths:\n        sx1, sy1 = _to_svg(x1, y1)\n        sx2, sy2 = _to_svg(x2, y2)\n        parts.append(\n            f\'<line x1=\"\x7bsx1\x7d\" y1=\"\x7bsy1\x7d\" x2=\"\x7bsx2\x7d\" y2=\"\x7bsy2\x7d\" \'\n            f\'stroke=\"\x7bcolor\x7d\" stroke-width=\"\x7bwidth\x7d\" stroke-linecap=\"round\" />\'\n        )\n    parts.append(\"</svg>\")\n    with open(path, \"w\", encoding=\"utf-8\") as handle:\n        handle.write(\"\\n\".join(parts))\n\n\ndef done():\n    write_svg()\n\n\nclass Turtle:\n    def forward(self, dist): forward(dist)\n    def backward(self, dist): backward(dist)\n    def left(self, angle): left(angle)\n    def right(self, angle): right(angle)\n    def penup(self): penup()\n    def pendown(self): pendown()\n    def goto(self, x, y): goto(x, y)\n    def setheading(self, angle): setheading(angle)\n    def color(self, value): color(value)\n    def pensize(self, value): pensize(value)\n    def circle(self, radius, steps=36): circle(radius, steps)\n\n\nclass _Screen:\n    def bye(self):\n        pass\n\n\ndef Screen():\n    return _Screen()\n\n\natexit.register(done)\n"

/-- Configuration surface consumed by the runner (`config.py`).  Container
resource ceilings (memory, cpus, pids, tmpfs, image name, docker host) are
passed opaquely to the engine and do not influence control flow, so they
are not modelled. -/
structure Config where
  runner_enabled : Bool
  runner_auto_pull : Bool
  runner_timeout_sec : Nat
  runner_max_output : Nat
  runner_max_code_size : Nat
  runner_max_files : Nat
  runner_max_file_bytes : Nat
  runner_max_archive_bytes : Nat
  deriving DecidableEq, Repr

/-- Error outcomes of `run_python` as observed by its caller:
`validationError` is Python's `ValueError` (mapped by the caller to 400,
the spec's `ValidationError`), `runnerUnavailable`/`runnerError` are the
two runner exception classes, and `uncaughtExc` marks any other exception
escaping `run_python`. -/
inductive Outcome where
  | validationError
  | runnerUnavailable
  | runnerError
  | uncaughtExc
  deriving DecidableEq, Repr

/-- The value found under the `"path"` key of a file descriptor.  Python
code runs `(path or "").strip()`: a falsy non-string collapses to `""`,
while a truthy non-string raises `AttributeError` (no `.strip`). -/
inductive PathVal where
  | pstr (s : List Char)
  | nonStrTruthy
  | nonStrFalsy
  deriving DecidableEq, Repr

/-- One raw element of the `files` list passed to `run_python`. -/
inductive RawEntry where
  | notDict
  | entry (path : PathVal) (content : Option (List Char))
  deriving DecidableEq, Repr

/-- The raw `files` argument of `run_python`: falsy (`None` or `[]`),
a truthy non-list, or an actual list of entries. -/
inductive FilesInput where
  | falsy
  | nonList
  | items (l : List RawEntry)
  deriving DecidableEq, Repr

/-- A sanitized file: relative allow-listed path plus its text content. -/
structure SFile where
  path : List Char
  content : List Char
  deriving DecidableEq, Repr

/-- Character-class test of the `SAFE_PATH` regex (line 16), anchored at
both ends: first character ASCII alphanumeric, remaining characters
alphanumeric or `.` `_` `/` `-`.  (Python's `$` would also match before a
trailing newline, but `strip()` has already removed any such newline.) -/
def safe_path_match : List Char → Bool
  | [] => false
  | c :: rest =>
    c.isAlphanum && rest.all (fun d => d.isAlphanum || d == '.' || d == '_' || d == '/' || d == '-')

/-- Python's substring test `pat in s`. -/
def py_contains (pat : List Char) : List Char → Bool
  | [] => pat.isEmpty
  | c :: rest => pat.isPrefixOf (c :: rest) || py_contains pat rest

/-- The cleaning step of `_safe_path` (line 280):
`(path or "").strip().replace("\\", "/")`. -/
def clean_path (path : List Char) : List Char :=
  (pyStrip path).map (fun c => if c == '\\' then '/' else c)

/-- `_safe_path` (lines 279-287): `none` models raising `ValueError`. -/
def safe_path (path : List Char) : Option (List Char) :=
  let cleaned := clean_path path
  if cleaned.isEmpty then none
  else if "/".data.isPrefixOf cleaned then none
  else if "./".data.isPrefixOf cleaned then none
  else if "../".data.isPrefixOf cleaned then none
  else if py_contains "/../".data cleaned then none
  else if cleaned == "..".data then none
  else if !safe_path_match cleaned then none
  else some cleaned

/-- Evaluation of `(path or "")` followed by `.strip()`-access on the raw
`"path"` value: `none` models the `AttributeError` a truthy non-string
raises. -/
def path_str : PathVal → Option (List Char)
  | .pstr s => some s
  | .nonStrFalsy => some []
  | .nonStrTruthy => none

/-- Continuation of `_sanitize_files`'s loop body after `_safe_path` ran
(lines 302-308): the `isinstance(content, str)` check and the per-file
byte ceiling. -/
def sanitize_entry_rest (cfg : Config) :
    Option (List Char) → Option (List Char) → Except Outcome SFile
  | none, _ => .error .validationError
  | some _, none => .error .validationError
  | some cleaned, some text =>
    if utf8Len text > cfg.runner_max_file_bytes then .error .validationError
    else .ok { path := cleaned, content := text }

/-- Sanitization of a single entry of the loop body of `_sanitize_files`
(lines 298-308). -/
def sanitize_entry (cfg : Config) : RawEntry → Except Outcome SFile
  | .notDict => .error .validationError
  | .entry p content =>
    match path_str p with
    | none => .error .uncaughtExc
    | some ps => sanitize_entry_rest cfg (safe_path ps) content

/-- Combination of one sanitized entry with the sanitized remainder of
the list: the first failure wins, in list order. -/
def sanitize_list_step :
    Except Outcome SFile → Except Outcome (List SFile) → Except Outcome (List SFile)
  | .error err, _ => .error err
  | .ok _, .error err => .error err
  | .ok s, .ok ss => .ok (s :: ss)

/-- The entry loop of `_sanitize_files`: first failing entry raises. -/
def sanitize_list (cfg : Config) : List RawEntry → Except Outcome (List SFile)
  | [] => .ok []
  | e :: rest => sanitize_list_step (sanitize_entry cfg e) (sanitize_list cfg rest)

/-- `_sanitize_files` (lines 290-309). -/
def sanitize_files (cfg : Config) : FilesInput → Except Outcome (List SFile)
  | .falsy => .ok []
  | .nonList => .error .validationError
  | .items l =>
    if l.length > cfg.runner_max_files then .error .validationError
    else sanitize_list cfg l

/-- One tar entry as `_add_text` constructs it: `TarInfo(name=name)` with
`size` set to the UTF-8 byte length, `mode = 0o644`, and `mtime` left at
`TarInfo`'s default `0` (which is what makes the archive reproducible). -/
structure TarEntry where
  name : List Char
  mode : Nat
  mtime : Nat
  size : Nat
  data : List Char
  deriving DecidableEq, Repr

/-- The entry `_add_text` (lines 312-317) appends for `name`/`content`. -/
def mk_tar_entry (name content : List Char) : TarEntry :=
  { name := name, mode := 0o644, mtime := 0, size := utf8Len content, data := content }

/-- `_add_text` (lines 312-317): append one text member to the archive.
The tar byte stream is modelled at member granularity (the `tarfile`
serialization of an ordered member list is injective and deterministic). -/
def add_text (tar : List TarEntry) (name content : List Char) : List TarEntry :=
  tar ++ [mk_tar_entry name content]

/-- `_build_archive` (lines 320-328): `main.py`, then `turtle.py`, then
each sanitized file, in order. -/
def build_archive (code : List Char) (files : List SFile) : List TarEntry :=
  files.foldl (fun t e => add_text t e.path e.content)
    (add_text (add_text [] "main.py".data code) "turtle.py".data TURTLE_STUB.data)

/-- `_mime_for` (lines 401-413). -/
def mime_for (path : List Char) : List Char :=
  let p := path.map Char.toLower
  if ".svg".data.isSuffixOf p then "image/svg+xml".data
  else if ".png".data.isSuffixOf p then "image/png".data
  else if ".jpg".data.isSuffixOf p || ".jpeg".data.isSuffixOf p then "image/jpeg".data
  else if ".json".data.isSuffixOf p then "application/json".data
  else if ".txt".data.isSuffixOf p || ".csv".data.isSuffixOf p || ".md".data.isSuffixOf p then
    "text/plain".data
  else "text/plain".data

/-- The base64 alphabet used by `base64.b64encode`. -/
def B64_ALPHABET : List Char :=
  "ABCDEFGHIJKLMNOPQRSTUVWXYZabcdefghijklmnopqrstuvwxyz0123456789+/".data

/-- Character of the base64 alphabet at index `n`. -/
def b64Char (n : Nat) : Char :=
  B64_ALPHABET.getD n 'A'

/-- `base64.b64encode(content).decode("ascii")` on a byte sequence. -/
def base64encode : List Nat → List Char
  | [] => []
  | [a] => [b64Char (a / 4 % 64), b64Char (a % 4 * 16), '=', '=']
  | [a, b] => [b64Char (a / 4 % 64), b64Char (a % 4 * 16 + b / 16 % 16), b64Char (b % 16 * 4), '=']
  | a :: b :: c :: rest =>
    b64Char (a / 4 % 64) :: b64Char (a % 4 * 16 + b / 16 % 16)
      :: b64Char (b % 16 * 4 + c / 64 % 4) :: b64Char (c % 64) :: base64encode rest

/-- One member of the post-run archive returned by the engine's
`get_archive`, as `tarfile` parses it. -/
structure TarMember where
  name : List Char
  isFile : Bool
  content : List Nat
  deriving DecidableEq, Repr

/-- One produced file of the `RunResult` (lines 549-556). -/
structure FileOut where
  path : List Char
  size : Nat
  mime : List Char
  content_base64 : List Char
  deriving DecidableEq, Repr

/-- The `RunResult` dictionary (lines 561-568). -/
structure RunResult where
  stdout : List Char
  stderr : List Char
  exit_code : Option Int
  timed_out : Bool
  duration_ms : Nat
  files : List FileOut
  deriving DecidableEq, Repr

/-- Name normalization of an extracted member (lines 532-535):
`member.name.lstrip("./")`, strip a leading `tmp/`, `lstrip("./")` again.
Python's `lstrip("./")` removes any leading run of `.` and `/` characters. -/
def strip_member_name (n : List Char) : List Char :=
  let n1 := n.dropWhile (fun c => c == '.' || c == '/')
  let n2 := if "tmp/".data.isPrefixOf n1 then n1.drop 4 else n1
  n2.dropWhile (fun c => c == '.' || c == '/')

/-- Per-file truncation of extracted content (lines 547-548). -/
def clip_content (cfg : Config) (content : List Nat) : List Nat :=
  if content.length > cfg.runner_max_file_bytes then content.take cfg.runner_max_file_bytes
  else content

/-- The filtering tail of the collection loop, on the already-normalized
member name (lines 536-556). -/
def collect_step_named (cfg : Config) (acc : List FileOut) (name : List Char)
    (content : List Nat) : List FileOut :=
  if name.isEmpty then acc
  else if name == "main.py".data || name == "turtle.py".data then acc
  else if cfg.runner_max_files ≤ acc.length then acc
  else
    acc ++ [{ path := name, size := (clip_content cfg content).length, mime := mime_for name,
              content_base64 := base64encode (clip_content cfg content) }]

/-- Loop body of the output-file collection loop (lines 529-556). -/
def collect_step (cfg : Config) (acc : List FileOut) (m : TarMember) : List FileOut :=
  if !m.isFile then acc
  else collect_step_named cfg acc (strip_member_name m.name) m.content

/-- The output-file collection loop over all archive members. -/
def collect_files (cfg : Config) (members : List TarMember) : List FileOut :=
  members.foldl (collect_step cfg) []

/-- The truncation marker appended to oversized stdout/stderr (lines 510, 512). -/
def TRUNC_MARKER : String := "\n...[truncated]"

/-- Output truncation (lines 509-512): past the ceiling, keep the first
`maxLen` characters and append the marker. -/
def truncate_output (maxLen : Nat) (s : List Char) : List Char :=
  if s.length > maxLen then s.take maxLen ++ TRUNC_MARKER.data else s

/-- `_read_archive`'s size accounting (lines 389-398): `false` models
raising `RunnerError("Output archive too large.")` once the running total
of chunk sizes exceeds `max_bytes`. -/
def read_archive_ok : List Nat → Nat → Nat → Bool
  | [], _, _ => true
  | c :: rest, size, maxB =>
    if size + c > maxB then false else read_archive_ok rest (size + c) maxB

/-- Response of `exec_inspect`: the `Running` flag (a missing key reads as
falsy) and the `ExitCode` value (possibly `None`). -/
structure ExecStatus where
  running : Bool
  exitCode : Option Int
  deriving DecidableEq, Repr

/-- Return value of `exec_start(exec_id, demux=True)` after the
`isinstance(exec_output, tuple)` dispatch (lines 503-506); the payloads
are carried as already-decoded text since `.decode("utf-8",
errors="replace")` is total. -/
inductive ExecOutput where
  | demux (o e : Option (List Char))
  | nondemux (o : Option (List Char))
  deriving DecidableEq, Repr

/-- Outcome of `client.pull` (lines 429-434): docker-py raises
`ImageNotFound` or another `APIError` on failure. -/
inductive PullResp where
  | ok
  | imageNotFound
  | apiError
  deriving DecidableEq, Repr

/-- Exceptions that can escape the `try` block of `run_python`:
a `DockerException` (caught at lines 516-517) or a `RunnerError`
raised inside the block (not caught). -/
inductive TryErr where
  | docker
  | rerror
  deriving DecidableEq, Repr

/-- One call made against the container engine, with the identifier it
was given (identifiers are `None` when the source would pass `None`). -/
inductive EngCall where
  | pull
  | create
  | start (cid : Option String)
  | putArchive (cid : Option String)
  | execCreate (cid : Option String)
  | execStart (eid : String)
  | execInspect (eid : String)
  | kill (cid : Option String)
  | getArchive (cid : Option String)
  | remove (cid : String)
  deriving DecidableEq, Repr

/-- Oracle for one run's engine interactions.  Each field is the response
the engine would give to the corresponding call; `.error ()` models the
call raising a `DockerException`.  `inspect n` is the response to the
`n`-th `exec_inspect` call; `fuel` is the number of extra poll iterations
the deadline `RUNNER_TIMEOUT_SEC + 2` allows (the loop runs every 0.05 s);
`elapsedMs` is the observed wall-clock duration. -/
structure Engine where
  clientOk : Bool
  pullResp : PullResp
  createResp : Except Unit (Option String)
  startResp : Except Unit Unit
  putArchiveResp : Except Unit Bool
  execCreateResp : Except Unit (Option String)
  execStartResp : Except Unit ExecOutput
  inspect : Nat → Except Unit ExecStatus
  fuel : Nat
  getArchiveResp : Except Unit (List Nat × List TarMember)
  elapsedMs : Nat

/-- The poll loop of lines 491-493: keep inspecting while the exec
process reports `Running` and the deadline (modelled by `fuel`) has not
elapsed.  Returns the final status (or a raised `DockerException`) and
the total number of `exec_inspect` calls made so far. -/
def poll_aux (inspect : Nat → Except Unit ExecStatus) :
    Nat → Nat → ExecStatus → Except Unit ExecStatus × Nat
  | 0, i, cur => (.ok cur, i)
  | fuel + 1, i, cur =>
    if cur.running then
      match inspect i with
      | .error _ => (.error (), i + 1)
      | .ok st => poll_aux inspect fuel (i + 1) st
    else (.ok cur, i)

/-- The initial `exec_inspect` (line 490) followed by the poll loop. -/
def poll_run (eng : Engine) : Except Unit ExecStatus × Nat :=
  match eng.inspect 0 with
  | .error _ => (.error (), 1)
  | .ok st0 => poll_aux eng.inspect eng.fuel 1 st0

/-- Whether the poll phase ended with the exec process still reported
running (the orchestrator-side deadline fired). -/
def poll_final_running (eng : Engine) : Bool :=
  match (poll_run eng).1 with
  | .ok st => st.running
  | .error _ => false

/-- Demultiplexing of `exec_start`'s return (lines 503-508): a tuple is
unpacked, anything else is treated as plain stdout; `None` streams decode
to the empty string. -/
def decode_exec_output : ExecOutput → List Char × List Char
  | .demux o e => (o.getD [], e.getD [])
  | .nondemux o => (o.getD [], [])

/-- Data computed inside the `try` block that the tail of `run_python`
consumes after cleanup. -/
structure RunData where
  stdout : List Char
  stderr : List Char
  exit_code : Option Int
  timed_out : Bool
  members : List TarMember
  deriving Repr

/-- The body of the `try` block of `run_python` (lines 470-515), starting
after `create_container` returned, as a function of the engine responses
it consumes: start, upload, exec-create, exec-start, poll with deadline
(killing the container and forcing exit code 137 on expiry), decode and
truncate the streams, fetch the post-run archive. -/
def tryBodyAux (cfg : Config) (cid : Option String)
    (startR : Except Unit Unit) (putR : Except Unit Bool)
    (ecR : Except Unit (Option String)) (esR : Except Unit ExecOutput)
    (pollR : Except Unit ExecStatus × Nat)
    (arR : Except Unit (List Nat × List TarMember)) :
    Except TryErr RunData × List EngCall :=
  match startR with
  | .error _ => (.error .docker, [.start cid])
  | .ok _ =>
    match putR with
    | .error _ => (.error .docker, [.start cid, .putArchive cid])
    | .ok false => (.error .rerror, [.start cid, .putArchive cid])
    | .ok true =>
      match ecR with
      | .error _ => (.error .docker, [.start cid, .putArchive cid, .execCreate cid])
      | .ok none => (.error .rerror, [.start cid, .putArchive cid, .execCreate cid])
      | .ok (some eid) =>
        match esR with
        | .error _ =>
          (.error .docker, [.start cid, .putArchive cid, .execCreate cid, .execStart eid])
        | .ok out =>
          let pre : List EngCall := [.start cid, .putArchive cid, .execCreate cid, .execStart eid]
          match pollR with
          | (.error _, n) => (.error .docker, pre ++ List.replicate n (.execInspect eid))
          | (.ok st, n) =>
            let itrace := List.replicate n (EngCall.execInspect eid)
            let ec : Option Int := if st.running then some 137 else st.exitCode
            let tmo : Bool := st.running
            let ktrace : List EngCall := if st.running then [.kill cid] else []
            let outs := decode_exec_output out
            let so := truncate_output cfg.runner_max_output outs.1
            let se := truncate_output cfg.runner_max_output outs.2
            match arR with
            | .error _ => (.error .docker, pre ++ itrace ++ ktrace ++ [.getArchive cid])
            | .ok ar =>
              if read_archive_ok ar.1 0 cfg.runner_max_archive_bytes then
                (.ok { stdout := so, stderr := se, exit_code := ec, timed_out := tmo,
                       members := ar.2 },
                 pre ++ itrace ++ ktrace ++ [.getArchive cid])
              else
                (.error .rerror, pre ++ itrace ++ ktrace ++ [.getArchive cid])

/-- The `try` block body applied to the oracle's actual responses. -/
def tryBody (cfg : Config) (eng : Engine) (cid : Option String) :
    Except TryErr RunData × List EngCall :=
  tryBodyAux cfg cid eng.startResp eng.putArchiveResp eng.execCreateResp eng.execStartResp
    (poll_run eng) eng.getArchiveResp

/-- The optional image pull (lines 428-434); both failure modes raise
`RunnerUnavailable`. -/
def pull_step (cfg : Config) (eng : Engine) : Except Unit Unit :=
  if cfg.runner_auto_pull then
    match eng.pullResp with
    | .ok => Except.ok ()
    | .imageNotFound => .error ()
    | .apiError => .error ()
  else .ok ()

/-- Engine calls made by the optional image pull. -/
def pull_trace (cfg : Config) : List EngCall :=
  if cfg.runner_auto_pull then [.pull] else []

/-- Assembly of the returned `RunResult` (lines 525-568): collect output
files from the archive members and force `timed_out` for the sentinel
exit codes 124 and 137 (line 558). -/
def mk_result (cfg : Config) (eng : Engine) (d : RunData) : RunResult :=
  { stdout := d.stdout, stderr := d.stderr, exit_code := d.exit_code,
    timed_out := d.timed_out || d.exit_code == some 124 || d.exit_code == some 137,
    duration_ms := eng.elapsedMs,
    files := collect_files cfg d.members }

/-- The `finally` block's engine interaction (lines 518-523): the
container is force-removed exactly when an identifier was obtained. -/
def cleanup_calls : Option String → List EngCall
  | some cid => [EngCall.remove cid]
  | none => []

/-- The run from the point where `create_container` has returned: the
`try` body, the guaranteed `finally` removal (lines 518-523, performed
exactly when a container identifier was obtained, its own failure
swallowed), and the mapping of escaped exceptions (`DockerException` to
`RunnerUnavailable` at lines 516-517, `RunnerError` propagating). -/
def after_create (cfg : Config) (eng : Engine) (cidOpt : Option String) :
    Except Outcome RunResult × List EngCall :=
  let r := tryBody cfg eng cidOpt
  (match r.1 with
   | .error .docker => .error .runnerUnavailable
   | .error .rerror => .error .runnerError
   | .ok d => .ok (mk_result cfg eng d),
   pull_trace cfg ++ EngCall.create :: (r.2 ++ cleanup_calls cidOpt))

/-- The engine-facing phase of `run_python` (lines 427-568): client
construction (`_client`, whose socket checks raise `RunnerUnavailable`),
optional pull, container creation, then `after_create`. -/
def engine_phase (cfg : Config) (eng : Engine) : Except Outcome RunResult × List EngCall :=
  if !eng.clientOk then (.error .runnerUnavailable, [])
  else
    match pull_step cfg eng with
    | .error _ => (.error .runnerUnavailable, pull_trace cfg)
    | .ok _ =>
      match eng.createResp with
      | .error _ => (.error .runnerUnavailable, pull_trace cfg ++ [.create])
      | .ok cidOpt => after_create cfg eng cidOpt

/-- `run_python` (lines 416-568) over the engine oracle.  Returns the
outcome (a `RunResult` or the raised error) paired with the ordered trace
of engine calls. -/
def run_python (cfg : Config) (eng : Engine) (code : Option (List Char)) (files : FilesInput) :
    Except Outcome RunResult × List EngCall :=
  if !cfg.runner_enabled then (.error .runnerUnavailable, [])
  else
    match code with
    | none => (.error .validationError, [])
    | some c =>
      if pyStripEmpty c then (.error .validationError, [])
      else if c.length > cfg.runner_max_code_size then (.error .validationError, [])
      else
        match sanitize_files cfg files with
        | .error e => (.error e, [])
        | .ok cleaned =>
          let _archive := build_archive c cleaned
          engine_phase cfg eng

/-- A file entry whose `"path"` value would not crash `.strip()`:
everything except a truthy non-string. -/
def entry_path_ok : RawEntry → Prop
  | .notDict => True
  | .entry p _ => p ≠ PathVal.nonStrTruthy

/-- All entries of the `files` argument have `.strip()`-safe path values. -/
def files_paths_ok : FilesInput → Prop
  | .items l => ∀ e ∈ l, entry_path_ok e
  | _ => True

/-- Path shapes `_safe_path` rejects on account of `..` or a leading
slash: the cleaned path starts with `/`, `./` or `../`, equals `..`, or
contains `/../`. -/
def bad_path (cleaned : List Char) : Prop :=
  "/".data.isPrefixOf cleaned = true ∨ "./".data.isPrefixOf cleaned = true
    ∨ "../".data.isPrefixOf cleaned = true ∨ cleaned = "..".data
    ∨ py_contains "/../".data cleaned = true

/-- A configuration with the runner enabled and roomy ceilings, used for
concrete witness runs. -/
def cfgOK : Config :=
  { runner_enabled := true, runner_auto_pull := false, runner_timeout_sec := 3,
    runner_max_output := 100, runner_max_code_size := 1000, runner_max_files := 8,
    runner_max_file_bytes := 50000, runner_max_archive_bytes := 250000 }

/-- An engine oracle describing one fully successful run: the exec
process finishes on the first poll with exit code 0, prints `hi`, and the
post-run archive holds `out.txt`, `main.py` and `turtle.py`. -/
def engOK : Engine :=
  { clientOk := true, pullResp := .ok, createResp := .ok (some "c1"),
    startResp := .ok (), putArchiveResp := .ok true,
    execCreateResp := .ok (some "e1"),
    execStartResp := .ok (.demux (some "hi\n".data) (some [])),
    inspect := fun _ => .ok { running := false, exitCode := some 0 },
    fuel := 100,
    getArchiveResp := .ok ([10],
      [ { name := "tmp/out.txt".data, isFile := true, content := [104, 105] },
        { name := "tmp/main.py".data, isFile := true, content := [104] },
        { name := "tmp/turtle.py".data, isFile := true, content := [104] } ]),
    elapsedMs := 5 }

/-- The successful engine but with the docker control socket missing, so
`_client` raises `RunnerUnavailable` before any engine call. -/
def engNoClient : Engine :=
  { engOK with clientOk := false }

/-- A configuration whose code-size ceiling is one, exposing the
character-versus-byte distinction of the code length check. -/
def cfgTiny : Config :=
  { cfgOK with runner_max_code_size := 1 }

/-- A configuration whose stdout/stderr ceiling is three characters. -/
def cfgSmallOut : Config :=
  { cfgOK with runner_max_output := 3 }

/-- The successful engine, but the exec process never stops running, so
the poll deadline (two spare iterations of fuel) fires. -/
def engTimeout : Engine :=
  { engOK with inspect := fun _ => .ok { running := true, exitCode := none }, fuel := 2 }

/-- The successful engine, but `put_archive` is not acknowledged. -/
def engUploadFail : Engine :=
  { engOK with putArchiveResp := .ok false }

/-- The successful engine, but the post-run archive stream is larger
than the configured total-byte ceiling. -/
def engArchiveLarge : Engine :=
  { engOK with getArchiveResp := .ok ([300000], []) }

/-- The successful engine, but `exec_start` raises a `DockerException`
mid-run. -/
def engExecExn : Engine :=
  { engOK with execStartResp := .error () }

/-- The successful engine, but with eight characters of stdout. -/
def engLongOut : Engine :=
  { engOK with execStartResp := .ok (.demux (some "abcdefgh".data) (some [])) }

/-- The engine-call trace of a full successful run against `engOK`. -/
def traceRunOK : List EngCall :=
  [.create, .start (some "c1"), .putArchive (some "c1"), .execCreate (some "c1"),
   .execStart "e1", .execInspect "e1", .getArchive (some "c1"), .remove "c1"]

/-- The `RunResult` of the run against `engOK`. -/
def rOK : RunResult :=
  { stdout := "hi\n".data, stderr := [], exit_code := some 0, timed_out := false,
    duration_ms := 5,
    files := [{ path := "out.txt".data, size := 2, mime := "text/plain".data,
                content_base64 := "aGk=".data }] }

/-- The `RunResult` of the run against `engTimeout`. -/
def rTimeout : RunResult :=
  { rOK with exit_code := some 137, timed_out := true }

/-- The engine-call trace of the run against `engTimeout`. -/
def traceTimeout : List EngCall :=
  [.create, .start (some "c1"), .putArchive (some "c1"), .execCreate (some "c1"),
   .execStart "e1", .execInspect "e1", .execInspect "e1", .execInspect "e1",
   .kill (some "c1"), .getArchive (some "c1"), .remove "c1"]

/-- The `RunResult` of the run against `engLongOut` under `cfgSmallOut`:
three kept characters plus the truncation marker. -/
def rLong : RunResult :=
  { rOK with stdout := "abc\n...[truncated]".data }

example : safe_path "notes.txt".data = some "notes.txt".data := by decide
example : safe_path "/etc/passwd".data = none := by decide
example : safe_path "../notes.txt".data = none := by decide
example : safe_path "a/../b".data = none := by decide
example : safe_path "a..b.txt".data = some "a..b.txt".data := by decide
example : safe_path "a/..".data = some "a/..".data := by decide
example : safe_path "  x.txt  ".data = some "x.txt".data := by decide
example : safe_path "\\abs".data = none := by decide
example : utf8Len "é".data = 2 := by decide
example : pyStripEmpty "  \t\n".data = true := by decide

lemma create_not_mem_pull_trace (cfg : Config) : EngCall.create ∉ pull_trace cfg := by
  unfold pull_trace
  split <;> simp

lemma after_create_snd (cfg : Config) (eng : Engine) (cidOpt : Option String) :
    (after_create cfg eng cidOpt).2
      = pull_trace cfg ++ EngCall.create :: ((tryBody cfg eng cidOpt).2
          ++ cleanup_calls cidOpt) :=
  rfl

lemma after_create_fst (cfg : Config) (eng : Engine) (cidOpt : Option String) :
    (after_create cfg eng cidOpt).1
      = match (tryBody cfg eng cidOpt).1 with
        | .error .docker => .error .runnerUnavailable
        | .error .rerror => .error .runnerError
        | .ok d => .ok (mk_result cfg eng d) :=
  rfl

lemma engine_phase_no_client (cfg : Config) (eng : Engine) (hcl : eng.clientOk = false) :
    engine_phase cfg eng = (.error .runnerUnavailable, []) := by
  unfold engine_phase
  rw [hcl]
  rfl

lemma engine_phase_pull_error (cfg : Config) (eng : Engine) (u : Unit)
    (hcl : eng.clientOk = true) (hp : pull_step cfg eng = .error u) :
    engine_phase cfg eng = (.error .runnerUnavailable, pull_trace cfg) := by
  unfold engine_phase
  rw [hcl, hp]
  rfl

lemma engine_phase_create_error (cfg : Config) (eng : Engine) (u : Unit)
    (hcl : eng.clientOk = true) (hp : pull_step cfg eng = .ok ())
    (hc : eng.createResp = .error u) :
    engine_phase cfg eng = (.error .runnerUnavailable, pull_trace cfg ++ [.create]) := by
  unfold engine_phase
  rw [hcl, hp, hc]
  rfl

lemma engine_phase_created (cfg : Config) (eng : Engine) (cidOpt : Option String)
    (hcl : eng.clientOk = true) (hp : pull_step cfg eng = .ok ())
    (hc : eng.createResp = .ok cidOpt) :
    engine_phase cfg eng = after_create cfg eng cidOpt := by
  unfold engine_phase
  rw [hcl, hp, hc]
  rfl

lemma run_python_disabled (cfg : Config) (eng : Engine) (code : Option (List Char))
    (files : FilesInput) (h : cfg.runner_enabled = false) :
    run_python cfg eng code files = (.error .runnerUnavailable, []) := by
  unfold run_python
  rw [h]
  rfl

lemma run_python_none (cfg : Config) (eng : Engine) (files : FilesInput)
    (h : cfg.runner_enabled = true) :
    run_python cfg eng none files = (.error .validationError, []) := by
  unfold run_python
  rw [h]
  rfl

lemma run_python_some (cfg : Config) (eng : Engine) (c : List Char) (files : FilesInput)
    (h : cfg.runner_enabled = true) :
    run_python cfg eng (some c) files
      = if pyStripEmpty c then (.error .validationError, [])
        else if c.length > cfg.runner_max_code_size then (.error .validationError, [])
        else
          match sanitize_files cfg files with
          | .error e => (.error e, [])
          | .ok _ => engine_phase cfg eng := by
  unfold run_python
  rw [h]
  rfl

lemma run_python_split (cfg : Config) (eng : Engine) (code : Option (List Char))
    (files : FilesInput) :
    run_python cfg eng code files = engine_phase cfg eng
      ∨ run_python cfg eng code files = (.error .runnerUnavailable, [])
      ∨ run_python cfg eng code files = (.error .validationError, [])
      ∨ ∃ err, sanitize_files cfg files = .error err
          ∧ run_python cfg eng code files = (.error err, []) := by
  cases h1 : cfg.runner_enabled with
  | false => exact Or.inr (Or.inl (run_python_disabled cfg eng code files h1))
  | true =>
    cases code with
    | none => exact Or.inr (Or.inr (Or.inl (run_python_none cfg eng files h1)))
    | some c =>
      rw [run_python_some cfg eng c files h1]
      cases h2 : pyStripEmpty c with
      | true => exact Or.inr (Or.inr (Or.inl rfl))
      | false =>
        by_cases h3 : c.length > cfg.runner_max_code_size
        · rw [if_pos h3]
          exact Or.inr (Or.inr (Or.inl rfl))
        · rw [if_neg h3]
          cases hs : sanitize_files cfg files with
          | error err => exact Or.inr (Or.inr (Or.inr ⟨err, rfl, rfl⟩))
          | ok cleaned => exact Or.inl rfl

lemma mem_concat_last (pre t : List EngCall) (x y : EngCall) :
    x ∈ pre ++ y :: (t ++ [x]) ∧ (pre ++ y :: (t ++ [x])).getLast? = some x := by
  refine ⟨by simp, ?_⟩
  rw [show pre ++ y :: (t ++ [x]) = (pre ++ y :: t) ++ [x] by simp]
  exact List.getLast?_concat _

lemma engine_phase_trace_shape (cfg : Config) (eng : Engine) (cidOpt : Option String)
    (hcl : eng.clientOk = true) (hp : pull_step cfg eng = .ok ())
    (hc : eng.createResp = .ok cidOpt) :
    (engine_phase cfg eng).2
      = pull_trace cfg ++ EngCall.create :: ((tryBody cfg eng cidOpt).2
          ++ cleanup_calls cidOpt) := by
  rw [engine_phase_created cfg eng cidOpt hcl hp hc, after_create_snd]

lemma engine_phase_removed (cfg : Config) (eng : Engine) (id : String)
    (hc : eng.createResp = Except.ok (some id))
    (hmem : EngCall.create ∈ (engine_phase cfg eng).2) :
    EngCall.remove id ∈ (engine_phase cfg eng).2
      ∧ (engine_phase cfg eng).2.getLast? = some (EngCall.remove id) := by
  cases hcl : eng.clientOk with
  | false =>
    rw [engine_phase_no_client cfg eng hcl] at hmem
    simp at hmem
  | true =>
    cases hp : pull_step cfg eng with
    | error u =>
      rw [engine_phase_pull_error cfg eng u hcl hp] at hmem
      exact absurd hmem (create_not_mem_pull_trace cfg)
    | ok u =>
      cases u
      rw [engine_phase_trace_shape cfg eng (some id) hcl hp hc] at hmem ⊢
      exact mem_concat_last _ _ _ _

/-- C1: whenever a container identifier was obtained from the engine,
`run_python` invokes container removal for exactly that identifier before
returning or raising, on every path, and the removal is the final engine
call of the run. -/
theorem container_always_removed (cfg : Config) (eng : Engine) (code : Option (List Char))
    (files : FilesInput) (id : String)
    (hc : eng.createResp = Except.ok (some id))
    (hmem : EngCall.create ∈ (run_python cfg eng code files).2) :
    EngCall.remove id ∈ (run_python cfg eng code files).2
      ∧ (run_python cfg eng code files).2.getLast? = some (EngCall.remove id) := by
  rcases run_python_split cfg eng code files with h | h | h | ⟨err, _, h⟩ <;> rw [h] at hmem ⊢
  · exact engine_phase_removed cfg eng id hc hmem
  · simp at hmem
  · simp at hmem
  · simp at hmem

/-- Witness for C1: in a concrete successful run the created container
`c1` is removed, as the last engine call. -/
theorem container_always_removed_witness :
    EngCall.remove "c1" ∈ (run_python cfgOK engOK (some "print".data) FilesInput.falsy).2
      ∧ (run_python cfgOK engOK (some "print".data) FilesInput.falsy).2.getLast?
          = some (EngCall.remove "c1") :=
  container_always_removed cfgOK engOK (some "print".data) FilesInput.falsy "c1"
    (by rfl) (by decide)

lemma sanitize_entry_rest_err (cfg : Config) (sp content : Option (List Char)) (err : Outcome)
    (h : sanitize_entry_rest cfg sp content = .error err) : err = .validationError := by
  cases sp with
  | none =>
    simp [sanitize_entry_rest] at h
    exact h.symm
  | some cleaned =>
    cases content with
    | none =>
      simp [sanitize_entry_rest] at h
      exact h.symm
    | some text =>
      by_cases hb : utf8Len text > cfg.runner_max_file_bytes
      · simp [sanitize_entry_rest, hb] at h
        exact h.symm
      · simp [sanitize_entry_rest, hb] at h

lemma sanitize_entry_err (cfg : Config) (e : RawEntry) (err : Outcome)
    (hok : entry_path_ok e) (h : sanitize_entry cfg e = .error err) :
    err = .validationError := by
  cases e with
  | notDict =>
    simp [sanitize_entry] at h
    exact h.symm
  | entry p content =>
    cases p with
    | nonStrTruthy => exact absurd rfl hok
    | nonStrFalsy =>
      rw [show sanitize_entry cfg (RawEntry.entry PathVal.nonStrFalsy content)
            = sanitize_entry_rest cfg (safe_path []) content from rfl] at h
      exact sanitize_entry_rest_err cfg _ content err h
    | pstr s =>
      rw [show sanitize_entry cfg (RawEntry.entry (PathVal.pstr s) content)
            = sanitize_entry_rest cfg (safe_path s) content from rfl] at h
      exact sanitize_entry_rest_err cfg _ content err h

lemma sanitize_list_err (cfg : Config) (err : Outcome) :
    ∀ l : List RawEntry, (∀ e ∈ l, entry_path_ok e) →
      sanitize_list cfg l = .error err → err = .validationError := by
  intro l
  induction l with
  | nil =>
    intro _ h
    simp [sanitize_list] at h
  | cons e rest ih =>
    intro hok h
    rw [show sanitize_list cfg (e :: rest)
          = sanitize_list_step (sanitize_entry cfg e) (sanitize_list cfg rest) from rfl] at h
    cases he : sanitize_entry cfg e with
    | error err1 =>
      rw [he] at h
      simp [sanitize_list_step] at h
      have h1 := sanitize_entry_err cfg e err1 (hok e (by simp)) he
      rw [← h, h1]
    | ok s =>
      rw [he] at h
      cases hr : sanitize_list cfg rest with
      | error err2 =>
        rw [hr] at h
        simp [sanitize_list_step] at h
        exact ih (fun x hx => hok x (by simp [hx])) (by rw [hr, h])
      | ok ss =>
        rw [hr] at h
        simp [sanitize_list_step] at h

lemma sanitize_files_err (cfg : Config) (fi : FilesInput) (err : Outcome)
    (hok : files_paths_ok fi) (h : sanitize_files cfg fi = .error err) :
    err = .validationError := by
  cases fi with
  | falsy => simp [sanitize_files] at h
  | nonList =>
    simp [sanitize_files] at h
    exact h.symm
  | items l =>
    rw [show sanitize_files cfg (.items l)
          = if l.length > cfg.runner_max_files then .error .validationError
            else sanitize_list cfg l from rfl] at h
    by_cases hl : l.length > cfg.runner_max_files
    · rw [if_pos hl] at h
      injection h with h1
      exact h1.symm
    · rw [if_neg hl] at h
      exact sanitize_list_err cfg err l hok h

lemma engine_phase_outcomes (cfg : Config) (eng : Engine) :
    (∃ r, (engine_phase cfg eng).1 = Except.ok r)
      ∨ (engine_phase cfg eng).1 = .error .runnerUnavailable
      ∨ (engine_phase cfg eng).1 = .error .runnerError := by
  cases hcl : eng.clientOk with
  | false =>
    rw [engine_phase_no_client cfg eng hcl]
    exact Or.inr (Or.inl rfl)
  | true =>
    cases hp : pull_step cfg eng with
    | error u =>
      rw [engine_phase_pull_error cfg eng u hcl hp]
      exact Or.inr (Or.inl rfl)
    | ok u =>
      cases u
      cases hc : eng.createResp with
      | error v =>
        rw [engine_phase_create_error cfg eng v hcl hp hc]
        exact Or.inr (Or.inl rfl)
      | ok cidOpt =>
        rw [engine_phase_created cfg eng cidOpt hcl hp hc, after_create_fst]
        cases htb : (tryBody cfg eng cidOpt).1 with
        | error e =>
          cases e with
          | docker => exact Or.inr (Or.inl rfl)
          | rerror => exact Or.inr (Or.inr rfl)
        | ok d => exact Or.inl ⟨mk_result cfg eng d, rfl⟩

lemma engine_phase_not_validation (cfg : Config) (eng : Engine) :
    (engine_phase cfg eng).1 ≠ .error .validationError := by
  rcases engine_phase_outcomes cfg eng with ⟨r, hr⟩ | hr | hr <;> rw [hr] <;> simp

/-- C2 (amended): for every input whose file entries carry text (or
falsy) `"path"` values, `run_python` returns exactly one `RunResult` or
raises exactly one of the three named error kinds.  (The amendment is
forced by the `AttributeError` counterexample below.) -/
theorem run_python_outcomes (cfg : Config) (eng : Engine) (code : Option (List Char))
    (files : FilesInput) (hok : files_paths_ok files) :
    (∃ r, (run_python cfg eng code files).1 = Except.ok r)
      ∨ (run_python cfg eng code files).1 = .error .validationError
      ∨ (run_python cfg eng code files).1 = .error .runnerUnavailable
      ∨ (run_python cfg eng code files).1 = .error .runnerError := by
  rcases run_python_split cfg eng code files with h | h | h | ⟨err, hs, h⟩
  · rw [h]
    rcases engine_phase_outcomes cfg eng with ⟨r, hr⟩ | hr | hr
    · exact Or.inl ⟨r, hr⟩
    · exact Or.inr (Or.inr (Or.inl hr))
    · exact Or.inr (Or.inr (Or.inr hr))
  · rw [h]
    exact Or.inr (Or.inr (Or.inl rfl))
  · rw [h]
    exact Or.inr (Or.inl rfl)
  · rw [h]
    rw [sanitize_files_err cfg files err hok hs]
    exact Or.inr (Or.inl rfl)

/-- Witness for C2: a concrete successful run, with no files. -/
theorem run_python_outcomes_witness :
    (∃ r, (run_python cfgOK engOK (some "print".data) FilesInput.falsy).1 = Except.ok r)
      ∨ (run_python cfgOK engOK (some "print".data) FilesInput.falsy).1
          = .error .validationError
      ∨ (run_python cfgOK engOK (some "print".data) FilesInput.falsy).1
          = .error .runnerUnavailable
      ∨ (run_python cfgOK engOK (some "print".data) FilesInput.falsy).1
          = .error .runnerError :=
  run_python_outcomes cfgOK engOK (some "print".data) FilesInput.falsy trivial

/-- Counterexample to C2 as stated: a file entry whose `"path"` value is
a truthy non-string makes `(path or "").strip()` raise `AttributeError`,
which is none of the three named error kinds. -/
theorem run_python_outcomes_counterexample :
    run_python cfgOK engOK (some "print".data)
        (FilesInput.items [RawEntry.entry PathVal.nonStrTruthy (some "x".data)])
      = (.error .uncaughtExc, [])
    ∧ Outcome.uncaughtExc ≠ Outcome.validationError
    ∧ Outcome.uncaughtExc ≠ Outcome.runnerUnavailable
    ∧ Outcome.uncaughtExc ≠ Outcome.runnerError :=
  ⟨rfl, by decide, by decide, by decide⟩

/-- C10: with the runner administratively disabled, `run_python` raises
`RunnerUnavailable` for every input — including inputs that would
otherwise fail validation — and makes no engine call, because the enabled
check precedes all input validation. -/
theorem disabled_always_unavailable (cfg : Config) (eng : Engine) (code : Option (List Char))
    (files : FilesInput) (h : cfg.runner_enabled = false) :
    run_python cfg eng code files = (.error .runnerUnavailable, []) := by
  unfold run_python
  simp [h]

/-- Witness for C10: the disabled runner rejects even an input whose code
is empty and whose file path is traversal-unsafe. -/
theorem disabled_always_unavailable_witness :
    run_python { cfgOK with runner_enabled := false } engOK (some [])
        (FilesInput.items [.entry (.pstr "../x".data) (some "x".data)])
      = (.error .runnerUnavailable, []) :=
  disabled_always_unavailable _ engOK (some [])
    (FilesInput.items [.entry (.pstr "../x".data) (some "x".data)]) (by rfl)

lemma safe_path_none_of_bad (p : List Char) (h : bad_path (clean_path p)) :
    safe_path p = none := by
  unfold safe_path
  dsimp only
  split_ifs with h1 h2 h3 h4 h5 h6 h7 <;> try rfl
  exfalso
  rcases h with h | h | h | h | h <;> simp_all

lemma sanitize_list_bad (cfg : Config) (p : List Char) (cont : Option (List Char))
    (hbad : bad_path (clean_path p)) :
    ∀ l : List RawEntry, RawEntry.entry (PathVal.pstr p) cont ∈ l →
      (∀ e ∈ l, entry_path_ok e) → sanitize_list cfg l = .error .validationError := by
  intro l
  induction l with
  | nil =>
    intro hmem _
    cases hmem
  | cons e rest ih =>
    intro hmem hok
    rw [show sanitize_list cfg (e :: rest)
          = sanitize_list_step (sanitize_entry cfg e) (sanitize_list cfg rest) from rfl]
    rcases List.mem_cons.mp hmem with heq | hmem'
    · subst heq
      rw [show sanitize_entry cfg (RawEntry.entry (PathVal.pstr p) cont)
            = sanitize_entry_rest cfg (safe_path p) cont from rfl,
          safe_path_none_of_bad p hbad]
      rfl
    · cases he : sanitize_entry cfg e with
      | error err1 =>
        rw [sanitize_entry_err cfg e err1 (hok e (by simp)) he]
        rfl
      | ok s =>
        rw [ih hmem' (fun x hx => hok x (by simp [hx]))]
        rfl

lemma sanitize_files_bad (cfg : Config) (l : List RawEntry) (p : List Char)
    (cont : Option (List Char)) (hmem : RawEntry.entry (PathVal.pstr p) cont ∈ l)
    (hbad : bad_path (clean_path p)) (hok : ∀ e ∈ l, entry_path_ok e) :
    sanitize_files cfg (FilesInput.items l) = .error .validationError := by
  rw [show sanitize_files cfg (FilesInput.items l)
        = if l.length > cfg.runner_max_files then .error .validationError
          else sanitize_list cfg l from rfl]
  by_cases hl : l.length > cfg.runner_max_files
  · rw [if_pos hl]
  · rw [if_neg hl]
    exact sanitize_list_bad cfg p cont hbad l hmem hok

/-- C3 (amended): a file path whose cleaned form begins with `/`, `./`
or `../`, equals `..`, or contains `/../` makes `run_python` (with the
runner enabled) fail with `ValidationError` before any engine call —
provided every entry's path value is text (or falsy).  A path that
merely contains `..` inside a name component (such as `a..b.txt`, or the
trailing component of `a/..`) is NOT rejected, as the counterexample
shows. -/
theorem bad_paths_rejected (cfg : Config) (eng : Engine) (code : Option (List Char))
    (files : FilesInput) (l : List RawEntry) (p : List Char) (cont : Option (List Char))
    (hen : cfg.runner_enabled = true)
    (hfi : files = FilesInput.items l)
    (hmem : RawEntry.entry (PathVal.pstr p) cont ∈ l)
    (hbad : bad_path (clean_path p))
    (hok : ∀ e ∈ l, entry_path_ok e) :
    run_python cfg eng code files = (.error .validationError, []) := by
  subst hfi
  have hsf := sanitize_files_bad cfg l p cont hmem hbad hok
  cases code with
  | none => exact run_python_none cfg eng _ hen
  | some c =>
    rw [run_python_some cfg eng c _ hen]
    cases h2 : pyStripEmpty c with
    | true => rfl
    | false =>
      by_cases h3 : c.length > cfg.runner_max_code_size
      · rw [if_pos h3]
        rfl
      · rw [if_neg h3, hsf]
        rfl

/-- Witness for C3 (amended): the traversal path `../x.txt` is rejected
with `ValidationError` and no engine call is made. -/
theorem bad_paths_rejected_witness :
    run_python cfgOK engOK (some "print".data)
        (FilesInput.items [RawEntry.entry (PathVal.pstr "../x.txt".data) (some "x".data)])
      = (.error .validationError, []) :=
  bad_paths_rejected cfgOK engOK (some "print".data) _
    [RawEntry.entry (PathVal.pstr "../x.txt".data) (some "x".data)]
    "../x.txt".data (some "x".data) rfl rfl (by simp)
    (Or.inr (Or.inr (Or.inl (by decide))))
    (by
      intro e he
      rcases List.mem_singleton.mp he with rfl
      exact fun hc => PathVal.noConfusion hc)

/-- Counterexample to C3 as stated: the path `a..b.txt` contains the
substring `..` yet passes sanitization; with the control socket missing
the run fails with `RunnerUnavailable`, not `ValidationError` during
sanitization. -/
theorem bad_paths_rejected_counterexample :
    py_contains "..".data "a..b.txt".data = true
    ∧ run_python cfgOK engNoClient (some "print".data)
          (FilesInput.items [RawEntry.entry (PathVal.pstr "a..b.txt".data) (some "x".data)])
        = (.error .runnerUnavailable, [])
    ∧ Outcome.runnerUnavailable ≠ Outcome.validationError :=
  ⟨rfl, rfl, by decide⟩

lemma length_le_utf8Len (c : List Char) : c.length ≤ utf8Len c := by
  induction c with
  | nil => simp [utf8Len]
  | cons a l ih =>
    have ha : 1 ≤ charUtf8Size a := by
      unfold charUtf8Size
      split_ifs <;> omega
    simp only [utf8Len, List.map_cons, List.sum_cons, List.length_cons] at ih ⊢
    omega

/-- C8 (amended): with the runner enabled, `run_python` fails with
`ValidationError` when the code is missing, non-text or
whitespace-empty, and when the code's CHARACTER count (Python `len`)
exceeds `RUNNER_MAX_CODE_SIZE`; code at or below the ceiling in
characters — in particular any code at or below the ceiling in UTF-8
bytes — passes this check.  (The source checks `len(code)`, characters,
not the encoded byte length; the counterexample separates the two.) -/
theorem code_size_validation (cfg : Config) (eng : Engine) (fi : FilesInput) (c : List Char)
    (hen : cfg.runner_enabled = true) :
    (run_python cfg eng none fi = (.error .validationError, []))
    ∧ (pyStripEmpty c = true → run_python cfg eng (some c) fi = (.error .validationError, []))
    ∧ (pyStripEmpty c = false → c.length > cfg.runner_max_code_size →
        run_python cfg eng (some c) fi = (.error .validationError, []))
    ∧ (pyStripEmpty c = false → c.length ≤ cfg.runner_max_code_size →
        (run_python cfg eng (some c) FilesInput.falsy).1 ≠ .error .validationError)
    ∧ (pyStripEmpty c = false → utf8Len c ≤ cfg.runner_max_code_size →
        (run_python cfg eng (some c) FilesInput.falsy).1 ≠ .error .validationError) := by
  have hpass : pyStripEmpty c = false → c.length ≤ cfg.runner_max_code_size →
      (run_python cfg eng (some c) FilesInput.falsy).1 ≠ .error .validationError := by
    intro h2 h3
    rw [run_python_some cfg eng c FilesInput.falsy hen, h2,
        if_neg (by omega : ¬c.length > cfg.runner_max_code_size)]
    show (engine_phase cfg eng).1 ≠ Except.error Outcome.validationError
    exact engine_phase_not_validation cfg eng
  refine ⟨run_python_none cfg eng fi hen, ?_, ?_, hpass, ?_⟩
  · intro h2
    rw [run_python_some cfg eng c fi hen, h2]
    rfl
  · intro h2 h3
    rw [run_python_some cfg eng c fi hen, h2, if_pos h3]
    rfl
  · intro h2 h3
    exact hpass h2 (le_trans (length_le_utf8Len c) h3)

/-- Witness for C8: whitespace-only code is rejected with
`ValidationError`, and the one-character code `print` passes the size
check (failing later only because the socket is missing). -/
theorem code_size_validation_witness :
    run_python cfgOK engOK (some "  \t ".data) FilesInput.falsy
        = (.error .validationError, [])
    ∧ (run_python cfgOK engNoClient (some "print".data) FilesInput.falsy).1
        ≠ .error .validationError :=
  ⟨(code_size_validation cfgOK engOK FilesInput.falsy "  \t ".data rfl).2.1 (by decide),
   (code_size_validation cfgOK engNoClient FilesInput.falsy "print".data rfl).2.2.2.1
     (by decide) (by decide)⟩

/-- Counterexample to C8 as stated: with a one-byte ceiling, the single
character `é` encodes to two UTF-8 bytes — exceeding the ceiling in
bytes — yet passes the validation check, because the source compares
`len(code)` (characters), not the encoded byte length. -/
theorem code_size_validation_counterexample :
    utf8Len "é".data > cfgTiny.runner_max_code_size
    ∧ "é".data.length ≤ cfgTiny.runner_max_code_size
    ∧ run_python cfgTiny engNoClient (some "é".data) FilesInput.falsy
        = (.error .runnerUnavailable, []) :=
  ⟨by decide, by decide, rfl⟩

lemma run_ok_shape (cfg : Config) (eng : Engine) (code : Option (List Char))
    (files : FilesInput) (r : RunResult) (t : List EngCall)
    (h : run_python cfg eng code files = (Except.ok r, t)) :
    ∃ cidOpt d, eng.createResp = .ok cidOpt ∧ (tryBody cfg eng cidOpt).1 = .ok d
      ∧ r = mk_result cfg eng d := by
  rcases run_python_split cfg eng code files with hs | hs | hs | ⟨err, _, hs⟩ <;> rw [hs] at h
  case inr.inl => simp at h
  case inr.inr.inl => simp at h
  case inr.inr.inr => simp at h
  cases hcl : eng.clientOk with
  | false =>
    rw [engine_phase_no_client cfg eng hcl] at h
    simp at h
  | true =>
    cases hp : pull_step cfg eng with
    | error u =>
      rw [engine_phase_pull_error cfg eng u hcl hp] at h
      simp at h
    | ok u =>
      cases u
      cases hc : eng.createResp with
      | error v =>
        rw [engine_phase_create_error cfg eng v hcl hp hc] at h
        simp at h
      | ok cidOpt =>
        rw [engine_phase_created cfg eng cidOpt hcl hp hc] at h
        have h1 : (after_create cfg eng cidOpt).1 = .ok r := by rw [h]
        rw [after_create_fst] at h1
        cases htb : (tryBody cfg eng cidOpt).1 with
        | error e =>
          rw [htb] at h1
          cases e <;> simp at h1
        | ok d =>
          rw [htb] at h1
          simp at h1
          exact ⟨cidOpt, d, rfl, htb, h1.symm⟩

lemma tryBody_ok_inv (cfg : Config) (eng : Engine) (cid : Option String) (d : RunData)
    (h : (tryBody cfg eng cid).1 = Except.ok d) :
    ∃ out st n ar,
      eng.execStartResp = .ok out ∧ poll_run eng = (.ok st, n)
      ∧ eng.getArchiveResp = .ok ar
      ∧ d.stdout = truncate_output cfg.runner_max_output (decode_exec_output out).1
      ∧ d.stderr = truncate_output cfg.runner_max_output (decode_exec_output out).2
      ∧ d.timed_out = st.running
      ∧ d.exit_code = (if st.running then some 137 else st.exitCode)
      ∧ d.members = ar.2 := by
  unfold tryBody at h
  cases hstart : eng.startResp with
  | error u =>
    rw [hstart] at h
    simp [tryBodyAux] at h
  | ok u =>
    cases u
    rw [hstart] at h
    cases hput : eng.putArchiveResp with
    | error u =>
      rw [hput] at h
      simp [tryBodyAux] at h
    | ok b =>
      rw [hput] at h
      cases b with
      | false => simp [tryBodyAux] at h
      | true =>
        cases hec : eng.execCreateResp with
        | error u =>
          rw [hec] at h
          simp [tryBodyAux] at h
        | ok eidOpt =>
          rw [hec] at h
          cases eidOpt with
          | none => simp [tryBodyAux] at h
          | some eid =>
            cases hes : eng.execStartResp with
            | error u =>
              rw [hes] at h
              simp [tryBodyAux] at h
            | ok out =>
              rw [hes] at h
              rcases hpoll : poll_run eng with ⟨pr, n⟩
              rw [hpoll] at h
              cases pr with
              | error u => simp [tryBodyAux] at h
              | ok st =>
                cases har : eng.getArchiveResp with
                | error u =>
                  rw [har] at h
                  simp [tryBodyAux] at h
                | ok ar =>
                  rw [har] at h
                  by_cases hread : read_archive_ok ar.1 0 cfg.runner_max_archive_bytes = true
                  · simp only [tryBodyAux, hread, if_true] at h
                    simp at h
                    refine ⟨out, st, n, ar, rfl, rfl, rfl, ?_⟩
                    rw [← h]
                    exact ⟨rfl, rfl, rfl, rfl, rfl⟩
                  · simp [tryBodyAux, hread] at h

lemma poll_final_running_eq (eng : Engine) (st : ExecStatus) (n : Nat)
    (hpoll : poll_run eng = (.ok st, n)) :
    poll_final_running eng = st.running := by
  unfold poll_final_running
  rw [hpoll]

/-- C5: in every returned `RunResult`, `timed_out` is true whenever the
observed exit code is a forced-kill sentinel (124 or 137), and whenever
the orchestrator's poll deadline elapsed while the exec process was
still reported running. -/
theorem timed_out_invariant (cfg : Config) (eng : Engine) (code : Option (List Char))
    (files : FilesInput) (r : RunResult) (t : List EngCall)
    (h : run_python cfg eng code files = (Except.ok r, t)) :
    ((r.exit_code = some 124 ∨ r.exit_code = some 137) → r.timed_out = true)
    ∧ (poll_final_running eng = true → r.timed_out = true) := by
  obtain ⟨cidOpt, d, hc, htb, hr⟩ := run_ok_shape cfg eng code files r t h
  obtain ⟨out, st, n, ar, hes, hpoll, har, hso, hse, htmo, hec, hm⟩ :=
    tryBody_ok_inv cfg eng cidOpt d htb
  subst hr
  constructor
  · intro hcode
    rcases hcode with h1 | h1 <;> simp [mk_result] at h1 ⊢ <;> simp [h1]
  · intro hp
    have hrun : st.running = true := by
      rw [← poll_final_running_eq eng st n hpoll]
      exact hp
    simp [mk_result, htmo, hrun]

/-- Witness for C5: the deadline-elapsed run reports `timed_out = true`
(with sentinel exit code 137). -/
theorem timed_out_invariant_witness : rTimeout.timed_out = true :=
  (timed_out_invariant cfgOK engTimeout (some "loop".data) FilesInput.falsy rTimeout
      traceTimeout rfl).1 (Or.inr rfl)

lemma truncate_output_long (m : Nat) (s : List Char) (h : s.length > m) :
    truncate_output m s = s.take m ++ TRUNC_MARKER.data
    ∧ (truncate_output m s).length = m + TRUNC_MARKER.data.length := by
  unfold truncate_output
  rw [if_pos h]
  refine ⟨rfl, ?_⟩
  rw [List.length_append, List.length_take]
  omega

lemma truncate_output_short (m : Nat) (s : List Char) (h : s.length ≤ m) :
    truncate_output m s = s := by
  unfold truncate_output
  rw [if_neg (by omega)]

/-- C6: in every returned `RunResult`, decoded stdout longer than the
`RUNNER_MAX_OUTPUT` character ceiling comes back as exactly the first
ceiling-many characters followed by the truncation marker (so its length
is the ceiling plus the marker's length), and stdout within the ceiling
comes back unchanged; independently the same holds for stderr. -/
theorem output_truncation (cfg : Config) (eng : Engine) (code : Option (List Char))
    (files : FilesInput) (r : RunResult) (t : List EngCall) (out : ExecOutput)
    (h : run_python cfg eng code files = (Except.ok r, t))
    (ho : eng.execStartResp = .ok out) :
    ((decode_exec_output out).1.length > cfg.runner_max_output →
        r.stdout = (decode_exec_output out).1.take cfg.runner_max_output ++ TRUNC_MARKER.data
        ∧ r.stdout.length = cfg.runner_max_output + TRUNC_MARKER.data.length)
    ∧ ((decode_exec_output out).1.length ≤ cfg.runner_max_output →
        r.stdout = (decode_exec_output out).1)
    ∧ ((decode_exec_output out).2.length > cfg.runner_max_output →
        r.stderr = (decode_exec_output out).2.take cfg.runner_max_output ++ TRUNC_MARKER.data
        ∧ r.stderr.length = cfg.runner_max_output + TRUNC_MARKER.data.length)
    ∧ ((decode_exec_output out).2.length ≤ cfg.runner_max_output →
        r.stderr = (decode_exec_output out).2) := by
  obtain ⟨cidOpt, d, hc, htb, hr⟩ := run_ok_shape cfg eng code files r t h
  obtain ⟨out', st, n, ar, hes, hpoll, har, hso, hse, htmo, hec, hm⟩ :=
    tryBody_ok_inv cfg eng cidOpt d htb
  have hout : out' = out := by
    rw [ho] at hes
    injection hes with h1
    exact h1.symm
  rw [hout] at hso hse
  subst hr
  have hstd : (mk_result cfg eng d).stdout
      = truncate_output cfg.runner_max_output (decode_exec_output out).1 := hso
  have herr : (mk_result cfg eng d).stderr
      = truncate_output cfg.runner_max_output (decode_exec_output out).2 := hse
  refine ⟨?_, ?_, ?_, ?_⟩
  · intro hl
    rw [hstd]
    obtain ⟨h1, h2⟩ := truncate_output_long cfg.runner_max_output (decode_exec_output out).1 hl
    exact ⟨h1, h2⟩
  · intro hl
    rw [hstd]
    exact truncate_output_short _ _ hl
  · intro hl
    rw [herr]
    obtain ⟨h1, h2⟩ := truncate_output_long cfg.runner_max_output (decode_exec_output out).2 hl
    exact ⟨h1, h2⟩
  · intro hl
    rw [herr]
    exact truncate_output_short _ _ hl

/-- Witness for C6: with a ceiling of three characters, an eight
character stdout comes back as `abc` plus the marker. -/
theorem output_truncation_witness :
    rLong.stdout = "abcdefgh".data.take 3 ++ TRUNC_MARKER.data
    ∧ rLong.stdout.length = 3 + TRUNC_MARKER.data.length :=
  (output_truncation cfgSmallOut engLongOut (some "print".data) FilesInput.falsy rLong
      traceRunOK (.demux (some "abcdefgh".data) (some [])) rfl rfl).1 (by decide)

lemma tryBody_upload_fail (cfg : Config) (eng : Engine) (cid : Option String)
    (hstart : eng.startResp = .ok ()) (hput : eng.putArchiveResp = .ok false) :
    tryBody cfg eng cid = (.error .rerror, [.start cid, .putArchive cid]) := by
  unfold tryBody
  rw [hstart, hput]
  rfl

lemma tryBody_exec_exn (cfg : Config) (eng : Engine) (cid : Option String) (eid : String)
    (hstart : eng.startResp = .ok ()) (hput : eng.putArchiveResp = .ok true)
    (hec : eng.execCreateResp = .ok (some eid)) (hes : eng.execStartResp = .error ()) :
    tryBody cfg eng cid
      = (.error .docker, [.start cid, .putArchive cid, .execCreate cid, .execStart eid]) := by
  unfold tryBody
  rw [hstart, hput, hec, hes]
  rfl

lemma tryBody_archive_large (cfg : Config) (eng : Engine) (cid : Option String) (eid : String)
    (out : ExecOutput) (st : ExecStatus) (n : Nat) (ar : List Nat × List TarMember)
    (hstart : eng.startResp = .ok ()) (hput : eng.putArchiveResp = .ok true)
    (hec : eng.execCreateResp = .ok (some eid)) (hes : eng.execStartResp = .ok out)
    (hpoll : poll_run eng = (.ok st, n)) (har : eng.getArchiveResp = .ok ar)
    (hread : read_archive_ok ar.1 0 cfg.runner_max_archive_bytes = false) :
    (tryBody cfg eng cid).1 = .error .rerror := by
  unfold tryBody
  rw [hstart, hput, hec, hes, hpoll, har]
  simp [tryBodyAux, hread]

lemma run_after_create (cfg : Config) (eng : Engine) (c : List Char) (files : FilesInput)
    (cf : List SFile) (cidOpt : Option String)
    (hen : cfg.runner_enabled = true) (h2 : pyStripEmpty c = false)
    (h3 : c.length ≤ cfg.runner_max_code_size)
    (hs : sanitize_files cfg files = .ok cf)
    (hcl : eng.clientOk = true) (hp : pull_step cfg eng = .ok ())
    (hcr : eng.createResp = .ok cidOpt) :
    run_python cfg eng (some c) files = after_create cfg eng cidOpt := by
  rw [run_python_some cfg eng c files hen, h2,
      if_neg (by omega : ¬c.length > cfg.runner_max_code_size), hs]
  show engine_phase cfg eng = after_create cfg eng cidOpt
  exact engine_phase_created cfg eng cidOpt hcl hp hcr

/-- C4 (amended): once a run is under way (valid input, client built,
container created and started), a failed archive upload and an output
archive exceeding the total-byte ceiling each make `run_python` fail
with `RunnerError`; but an engine exception raised during the live run
(here: `exec_start` raising `DockerException`) makes it fail with
`RunnerUnavailable`, because the `except DockerException` handler at
lines 516-517 wraps every mid-run engine exception as
`RunnerUnavailable`, not `RunnerError` as the claim states. -/
theorem error_kind_mapping (cfg : Config) (eng : Engine) (c : List Char) (files : FilesInput)
    (cf : List SFile) (cidOpt : Option String) (eid : String) (out : ExecOutput)
    (st : ExecStatus) (n : Nat) (ar : List Nat × List TarMember)
    (hen : cfg.runner_enabled = true) (h2 : pyStripEmpty c = false)
    (h3 : c.length ≤ cfg.runner_max_code_size)
    (hs : sanitize_files cfg files = .ok cf)
    (hcl : eng.clientOk = true) (hp : pull_step cfg eng = .ok ())
    (hcr : eng.createResp = .ok cidOpt) (hstart : eng.startResp = .ok ()) :
    (eng.putArchiveResp = .ok false →
        (run_python cfg eng (some c) files).1 = .error .runnerError)
    ∧ (eng.putArchiveResp = .ok true → eng.execCreateResp = .ok (some eid) →
        eng.execStartResp = .ok out → poll_run eng = (.ok st, n) →
        eng.getArchiveResp = .ok ar →
        read_archive_ok ar.1 0 cfg.runner_max_archive_bytes = false →
        (run_python cfg eng (some c) files).1 = .error .runnerError)
    ∧ (eng.putArchiveResp = .ok true → eng.execCreateResp = .ok (some eid) →
        eng.execStartResp = .error () →
        (run_python cfg eng (some c) files).1 = .error .runnerUnavailable) := by
  have hrun := run_after_create cfg eng c files cf cidOpt hen h2 h3 hs hcl hp hcr
  refine ⟨?_, ?_, ?_⟩
  · intro hput
    rw [hrun, after_create_fst, tryBody_upload_fail cfg eng cidOpt hstart hput]
  · intro hput hec hes hpoll har hread
    rw [hrun, after_create_fst]
    cases htb : (tryBody cfg eng cidOpt).1 with
    | error e =>
      have := tryBody_archive_large cfg eng cidOpt eid out st n ar hstart hput hec hes
        hpoll har hread
      rw [htb] at this
      injection this with h1
      rw [h1]
    | ok d =>
      have := tryBody_archive_large cfg eng cidOpt eid out st n ar hstart hput hec hes
        hpoll har hread
      rw [htb] at this
      cases this
  · intro hput hec hes
    rw [hrun, after_create_fst, tryBody_exec_exn cfg eng cidOpt eid hstart hput hec hes]

/-- Witness for C4 (amended): against three concrete engines — upload
unacknowledged, oversized output archive, `exec_start` raising — the
run fails with `RunnerError`, `RunnerError`, `RunnerUnavailable`
respectively. -/
theorem error_kind_mapping_witness :
    (run_python cfgOK engUploadFail (some "print".data) FilesInput.falsy).1
        = .error .runnerError
    ∧ (run_python cfgOK engArchiveLarge (some "print".data) FilesInput.falsy).1
        = .error .runnerError
    ∧ (run_python cfgOK engExecExn (some "print".data) FilesInput.falsy).1
        = .error .runnerUnavailable :=
  ⟨(error_kind_mapping cfgOK engUploadFail "print".data FilesInput.falsy [] (some "c1")
      "e1" (.demux (some []) (some [])) { running := false, exitCode := some 0 } 1
      ([10], []) rfl (by decide) (by decide) rfl rfl rfl rfl rfl).1 rfl,
   (error_kind_mapping cfgOK engArchiveLarge "print".data FilesInput.falsy [] (some "c1")
      "e1" (.demux (some "hi\n".data) (some [])) { running := false, exitCode := some 0 } 1
      ([300000], []) rfl (by decide) (by decide) rfl rfl rfl rfl rfl).2.1
     rfl rfl rfl rfl rfl (by decide),
   (error_kind_mapping cfgOK engExecExn "print".data FilesInput.falsy [] (some "c1")
      "e1" (.demux (some []) (some [])) { running := false, exitCode := some 0 } 1
      ([10], []) rfl (by decide) (by decide) rfl rfl rfl rfl rfl).2.2
     rfl rfl rfl⟩

/-- Counterexample to C4 as stated: an engine exception during the live
run yields `RunnerUnavailable`, not the `RunnerError` the claim names. -/
theorem error_kind_mapping_counterexample :
    (run_python cfgOK engExecExn (some "print".data) FilesInput.falsy).1
        = .error .runnerUnavailable
    ∧ Outcome.runnerUnavailable ≠ Outcome.runnerError :=
  ⟨rfl, by decide⟩

lemma build_archive_eq (code : List Char) (files : List SFile) :
    build_archive code files
      = mk_tar_entry "main.py".data code :: mk_tar_entry "turtle.py".data TURTLE_STUB.data
        :: files.map (fun f => mk_tar_entry f.path f.content) := by
  have h : ∀ (l : List SFile) (init : List TarEntry),
      l.foldl (fun t e => add_text t e.path e.content) init
        = init ++ l.map (fun f => mk_tar_entry f.path f.content) := by
    intro l
    induction l with
    | nil => intro init; simp
    | cons a l ih =>
      intro init
      simp only [List.foldl_cons, List.map_cons]
      rw [ih]
      simp [add_text]
  unfold build_archive
  rw [h]
  simp [add_text]

/-- C7: for every validated code text and list of `SanitizedFile`s, the
archive builder produces exactly the entry program `main.py`, the fixed
shim module `turtle.py`, and each sanitized file at its path, in that
order; every entry's tar timestamp is zero, so two calls on identical
inputs produce identical bytes. -/
theorem archive_contents (code : List Char) (files : List SFile) :
    (build_archive code files
      = mk_tar_entry "main.py".data code :: mk_tar_entry "turtle.py".data TURTLE_STUB.data
        :: files.map (fun f => mk_tar_entry f.path f.content))
    ∧ (∀ e ∈ build_archive code files, e.mtime = 0) := by
  refine ⟨build_archive_eq code files, ?_⟩
  intro e he
  rw [build_archive_eq code files] at he
  simp only [List.mem_cons, List.mem_map] at he
  rcases he with rfl | rfl | ⟨f, _, rfl⟩ <;> rfl

/-- Witness for C7: in the archive of a concrete run the entry program
is present with a zero timestamp. -/
theorem archive_contents_witness :
    (mk_tar_entry "main.py".data "pr".data).mtime = 0 :=
  (archive_contents "pr".data []).2 _ (by
    rw [(archive_contents "pr".data []).1]
    exact List.mem_cons_self _ _)

lemma collect_step_named_keeps (cfg : Config) (acc : List FileOut) (name : List Char)
    (content : List Nat)
    (hacc : ∀ f ∈ acc, f.path ≠ "main.py".data ∧ f.path ≠ "turtle.py".data) :
    ∀ f ∈ collect_step_named cfg acc name content,
      f.path ≠ "main.py".data ∧ f.path ≠ "turtle.py".data := by
  intro f hf
  unfold collect_step_named at hf
  split_ifs at hf with h1 h2 h3
  · exact hacc f hf
  · exact hacc f hf
  · exact hacc f hf
  · rcases List.mem_append.mp hf with hin | hin
    · exact hacc f hin
    · rcases List.mem_singleton.mp hin with rfl
      simp only [Bool.or_eq_true, beq_iff_eq, not_or] at h2
      exact ⟨h2.1, h2.2⟩

lemma collect_files_excludes (cfg : Config) (members : List TarMember) :
    ∀ f ∈ collect_files cfg members,
      f.path ≠ "main.py".data ∧ f.path ≠ "turtle.py".data := by
  unfold collect_files
  suffices h : ∀ (ms : List TarMember) (acc : List FileOut),
      (∀ f ∈ acc, f.path ≠ "main.py".data ∧ f.path ≠ "turtle.py".data) →
      ∀ f ∈ ms.foldl (collect_step cfg) acc,
        f.path ≠ "main.py".data ∧ f.path ≠ "turtle.py".data by
    exact h members [] (by simp)
  intro ms
  induction ms with
  | nil =>
    intro acc hacc f hf
    simp only [List.foldl_nil] at hf
    exact hacc f hf
  | cons m ms ih =>
    intro acc hacc f hf
    simp only [List.foldl_cons] at hf
    refine ih (collect_step cfg acc m) ?_ f hf
    intro g hg
    unfold collect_step at hg
    split_ifs at hg with hisf
    · exact hacc g hg
    · exact collect_step_named_keeps cfg acc _ _ hacc g hg

/-- C9: the `files` of every returned `RunResult` contain no entry whose
(prefix-stripped) path equals the entry program name `main.py` or the
shim module name `turtle.py`, whatever members the post-run archive
held. -/
theorem result_files_exclude_programs (cfg : Config) (eng : Engine)
    (code : Option (List Char)) (files : FilesInput) (r : RunResult) (t : List EngCall)
    (h : run_python cfg eng code files = (Except.ok r, t)) :
    ∀ f ∈ r.files, f.path ≠ "main.py".data ∧ f.path ≠ "turtle.py".data := by
  obtain ⟨cidOpt, d, hc, htb, hr⟩ := run_ok_shape cfg eng code files r t h
  subst hr
  intro f hf
  exact collect_files_excludes cfg d.members f hf

/-- Witness for C9: the concrete successful run — whose post-run archive
contains `tmp/main.py` and `tmp/turtle.py` — returns only `out.txt`,
whose path is neither program name. -/
theorem result_files_exclude_programs_witness :
    ({ path := "out.txt".data, size := 2, mime := "text/plain".data,
       content_base64 := "aGk=".data } : FileOut).path ≠ "main.py".data
    ∧ ({ path := "out.txt".data, size := 2, mime := "text/plain".data,
         content_base64 := "aGk=".data } : FileOut).path ≠ "turtle.py".data :=
  result_files_exclude_programs cfgOK engOK (some "print".data) FilesInput.falsy rOK
    traceRunOK rfl
    { path := "out.txt".data, size := 2, mime := "text/plain".data,
      content_base64 := "aGk=".data }
    (by decide)

end PythonRunner
